import Mathlib

/-
Verification development for the inventory repository.

Part1 embeds the create_product endpoint of
"Part 1: Code Review & Debugging (30 minutes)/Part 1 .py".
Part3 embeds the low_stock_alerts endpoint of
"Part 3: API Implementation (35 minutes)/Part 3.py".

Modelling conventions:
 - JSON request bodies are association lists of string keys to a small
   JSON value type; Python dict membership is key presence.
 - The relational store is a record of row lists.  The SQLAlchemy models
   themselves are not part of the repository (the endpoints assume them),
   so column shapes follow the schema the endpoints read and write.
 - The transaction of create_product is modelled as: build the pending
   rows, then commit exactly once; commit either succeeds (the pending
   rows are appended) or raises, in which case the store is left exactly
   as it was (rollback).  A commit-time IntegrityError either arises
   deterministically from the modelled constraints (a warehouse_id that
   does not exist) or is injected through an explicit fault parameter
   (for store-surfaced failures such as a concurrent duplicate SKU).
 - Timestamps are integers measured in days, so the 30-day window
   condition occurred_at >= now - 30 is integer arithmetic.
 - Exact decimal arithmetic (Python Decimal) is embedded as Rat.
-/

namespace Part1

/-- JSON-like values as delivered by request.json to the endpoint. -/
inductive Json where
  | null
  | bool (b : Bool)
  | int (n : Int)
  | str (s : String)
  | list (xs : List Json)
  | obj (kvs : List (String × Json))

/-- Value equality used for the SQL sku equality filter of the pre-check.
Scalar values compare by value; composite values (lists, objects) are not
valid SQL scalar parameters and never compare equal here. -/
def Json.scalarEq : Json → Json → Bool
  | Json.null, Json.null => true
  | Json.bool a, Json.bool b => a == b
  | Json.int a, Json.int b => a == b
  | Json.str a, Json.str b => a == b
  | _, _ => false

/-- Python dict lookup: data[k] when k is present. -/
def jfind (kvs : List (String × Json)) (k : String) : Option Json :=
  (kvs.find? (fun kv => kv.1 == k)).map (fun kv => kv.2)

/-- Python dict lookup where the caller has already checked presence. -/
def jfindD (kvs : List (String × Json)) (k : String) : Json :=
  (jfind kvs k).getD Json.null

/-- Field access w[k] on a JSON object. -/
def jget (w : Json) (k : String) : Json :=
  match w with
  | Json.obj kvs => jfindD kvs k
  | _ => Json.null

/-- Key presence test for a JSON object, Python `k in w`. -/
def jhas (w : Json) (k : String) : Bool :=
  match w with
  | Json.obj kvs => (jfind kvs k).isSome
  | _ => false

/-- Python isinstance(x, int): true for int values and also for booleans,
because bool is a subclass of int in Python. -/
def pyIsInt : Json → Bool
  | Json.int _ => true
  | Json.bool _ => true
  | _ => false

/-- Numeric value of a Python int-like value; True counts as 1, False as 0. -/
def pyToInt : Json → Int
  | Json.int n => n
  | Json.bool b => if b then 1 else 0
  | _ => 0

/-- Numeric value of a list of decimal digit characters. -/
def digitsToNat (cs : List Char) : Nat :=
  cs.foldl (fun acc c => acc * 10 + (c.toNat - 48)) 0

/-- Unsigned part of the Decimal literal grammar: digits with an optional
single fractional part, at least one digit in total. -/
def parseUnsigned (cs : List Char) : Option Rat :=
  match cs.dropWhile (fun c => !(c == '.')) with
  | [] =>
    if cs.isEmpty || !(cs.all Char.isDigit) then none
    else some ((digitsToNat cs : Int) : Rat)
  | _ :: frac =>
    let intPart := cs.takeWhile (fun c => !(c == '.'))
    if (intPart.isEmpty && frac.isEmpty) || !(intPart.all Char.isDigit)
        || !(frac.all Char.isDigit) then none
    else some (((digitsToNat intPart : Int) : Rat)
      + Rat.divInt (digitsToNat frac : Int) ((10 : Int) ^ frac.length))

/-- Decimal(s) on a string: plain finite decimal literals with an optional
leading sign parse to their exact rational value; anything else raises
InvalidOperation (modelled as none). -/
def parseDecimalString (s : String) : Option Rat :=
  match s.toList with
  | '-' :: cs => (parseUnsigned cs).map (fun q => -q)
  | '+' :: cs => parseUnsigned cs
  | cs => parseUnsigned cs

/-- Decimal(str(v)) for a JSON value v: an integer converts exactly, a
string goes through the decimal literal grammar, and every other value
(None, booleans, lists, objects) stringifies to something the Decimal
constructor rejects. -/
def pyDecimalOfJson : Json → Option Rat
  | Json.int n => some ((n : Int) : Rat)
  | Json.str s => parseDecimalString s
  | _ => none

/-- A committed Product row.  name and sku keep the JSON value the
endpoint passed through; price is the parsed exact decimal. -/
structure ProductRow where
  id : Int
  name : Json
  sku : Json
  price : Rat

/-- A committed Inventory row as built by the endpoint: the generated
product id plus the warehouse_id and quantity values of one request
entry, passed through unchanged. -/
structure InventoryRow where
  product_id : Int
  warehouse_id : Json
  quantity : Json

/-- The relational store: committed rows plus the set of existing
warehouse ids (the referential-integrity side condition for
Inventory.warehouse_id) and the next generated product id. -/
structure Store where
  nextId : Int
  products : List ProductRow
  inventories : List InventoryRow
  warehouses : List Int

/-- A store-surfaced failure injected at the single commit point:
either an IntegrityError such as a concurrent duplicate-SKU uniqueness
violation, or any other exception. -/
inductive CommitFault where
  | duplicateSku
  | unexpected (msg : String)

/-- Store accesses the endpoint performs, in order. -/
inductive StoreOp where
  | skuQuery
  | insertProduct
  | insertInventory
  | commitOp
  | rollbackOp
deriving DecidableEq

/-- The HTTP outcome of create_product: 201, 400, 409 or 500. -/
inductive CreateResult where
  | created (pid : Int)
  | badRequest (msg : String)
  | conflict (msg : String)
  | serverError (msg : String)
deriving DecidableEq

def isCreated : CreateResult → Bool
  | CreateResult.created _ => true
  | _ => false

def isConflict : CreateResult → Bool
  | CreateResult.conflict _ => true
  | _ => false

/-- The field order of the required-fields loop. -/
def requiredFields : List String := ["name", "sku", "price", "warehouse_quantities"]

/-- The first required field missing from the body, if any. -/
def firstMissing (data : List (String × Json)) : Option String :=
  requiredFields.find? (fun f => (jfind data f).isNone)

/-- The per-entry validation of the warehouse_quantities loop: the entry
must be a dict carrying warehouse_id and quantity keys, quantity must
satisfy isinstance(_, int) (so booleans pass) and be non-negative.  The
warehouse_id value itself is only tested for presence, never for type. -/
def entryValid (w : Json) : Bool :=
  (match w with | Json.obj _ => true | _ => false) &&
  jhas w "warehouse_id" && jhas w "quantity" &&
  pyIsInt (jget w "quantity") && decide (0 ≤ pyToInt (jget w "quantity"))

/-- The SKU pre-check read: Product.query.filter_by(sku).first(). -/
def skuTaken (s : Store) (sku : Json) : Bool :=
  s.products.any (fun p => Json.scalarEq p.sku sku)

/-- Referential integrity of Inventory.warehouse_id: the value must be
the id of an existing warehouse. -/
def warehouseExists (s : Store) (j : Json) : Bool :=
  match j with
  | Json.int i => decide (i ∈ s.warehouses)
  | _ => false

/-- One pending Inventory row, built from one warehouse_quantities entry. -/
def mkInventory (pid : Int) (w : Json) : InventoryRow :=
  { product_id := pid
    warehouse_id := jget w "warehouse_id"
    quantity := jget w "quantity" }

/-- All pending Inventory rows of the transaction. -/
def txnEntries (pid : Int) (wqs : List Json) : List InventoryRow :=
  wqs.map (fun w => mkInventory pid w)

/-- The deterministic part of the commit-time constraint check: every
pending Inventory row references an existing warehouse. -/
def commitOk (s : Store) (entries : List InventoryRow) : Bool :=
  entries.all (fun e => warehouseExists s e.warehouse_id)

/-- The committed store after the single successful commit: the Product
row and all Inventory rows appended, the id sequence advanced. -/
def commitStore (s : Store) (data : List (String × Json)) (price : Rat)
    (wqs : List Json) : Store :=
  { nextId := s.nextId + 1
    products := s.products ++
      [{ id := s.nextId, name := jfindD data "name", sku := jfindD data "sku", price := price }]
    inventories := s.inventories ++ txnEntries s.nextId wqs
    warehouses := s.warehouses }

/-- The 400 message of the IntegrityError handler. -/
def dbErrMsg : String := "Database error, possibly invalid warehouse_id or duplicate entry."

def missingFieldMsg (f : String) : String := "Missing required field: " ++ f

def priceMsg : String := "Invalid price format."

def wqListMsg : String := "warehouse_quantities must be a non-empty list."

def wqEntryMsg : String := "Each warehouse entry must have warehouse_id and non-negative integer quantity."

/-- Trace of store accesses of a run that reaches the transaction and
commits. -/
def txnTraceCommit : List StoreOp :=
  [StoreOp.skuQuery, StoreOp.insertProduct, StoreOp.insertInventory, StoreOp.commitOp]

/-- Trace of store accesses of a run that reaches the transaction and
rolls back. -/
def txnTraceRollback : List StoreOp :=
  [StoreOp.skuQuery, StoreOp.insertProduct, StoreOp.insertInventory, StoreOp.rollbackOp]

/-- The create_product endpoint.  Returns the HTTP outcome, the store
as committed after the request, and the ordered trace of store
accesses.  The fault parameter injects a store-surfaced exception at
the commit point (none for an unexceptional store). -/
def create_product (s : Store) (data : List (String × Json))
    (fault : Option CommitFault) : CreateResult × Store × List StoreOp :=
  match firstMissing data with
  | some f => (CreateResult.badRequest (missingFieldMsg f), s, [])
  | none =>
    match pyDecimalOfJson (jfindD data "price") with
    | none => (CreateResult.badRequest priceMsg, s, [])
    | some price =>
      if skuTaken s (jfindD data "sku") then
        (CreateResult.conflict "SKU must be unique.", s, [StoreOp.skuQuery])
      else
        match jfindD data "warehouse_quantities" with
        | Json.list wqs =>
          if wqs.isEmpty then
            (CreateResult.badRequest wqListMsg, s, [StoreOp.skuQuery])
          else if wqs.all entryValid then
            if commitOk s (txnEntries s.nextId wqs) then
              match fault with
              | some CommitFault.duplicateSku =>
                (CreateResult.badRequest dbErrMsg, s, txnTraceRollback)
              | some (CommitFault.unexpected m) =>
                (CreateResult.serverError m, s, txnTraceRollback)
              | none =>
                (CreateResult.created s.nextId, commitStore s data price wqs, txnTraceCommit)
            else
              (CreateResult.badRequest dbErrMsg, s, txnTraceRollback)
          else
            (CreateResult.badRequest wqEntryMsg, s, [StoreOp.skuQuery])
        | _ => (CreateResult.badRequest wqListMsg, s, [StoreOp.skuQuery])

/-- The messages of the four purely structural validation rejections. -/
def validationMsgs : List String :=
  [missingFieldMsg "name", missingFieldMsg "sku", missingFieldMsg "price",
   missingFieldMsg "warehouse_quantities", priceMsg, wqListMsg, wqEntryMsg]

/-- Whether an outcome is a structural-validation 400. -/
def isValidationError : CreateResult → Bool
  | CreateResult.badRequest m => validationMsgs.contains m
  | _ => false

end Part1

namespace Part3

/-- A Warehouse row. -/
structure WarehouseRow where
  id : Int
  company_id : Int
  name : String
deriving DecidableEq

/-- A Product row as read by the alert query: id, name, sku, the
nullable low_stock_thresh column and the supplier reference. -/
structure ProductRow where
  id : Int
  name : String
  sku : String
  low_stock_thresh : Option Int
  supplier_id : Int
deriving DecidableEq

/-- An Inventory row. -/
structure InventoryRow where
  id : Int
  product_id : Int
  warehouse_id : Int
  quantity : Int
deriving DecidableEq

/-- An InventoryChange ledger row; occurred_at is in days. -/
structure ChangeRow where
  inventory_id : Int
  quantity_delta : Int
  change_type : String
  occurred_at : Int
deriving DecidableEq

/-- A Supplier row. -/
structure SupplierRow where
  id : Int
  name : String
  contact_email : String
deriving DecidableEq

/-- The relational store read by the alert endpoint. -/
structure Db where
  warehouses : List WarehouseRow
  products : List ProductRow
  inventories : List InventoryRow
  changes : List ChangeRow
  suppliers : List SupplierRow

def RECENT_SALES_DAYS : Int := 30

/-- One row of the sales subquery: the inventory id group key, the
summed units sold, and the average daily sales. -/
structure SalesAgg where
  inventory_id : Int
  total_sales : Int
  avg_daily_sales : Rat
deriving DecidableEq

/-- The ledger-row filter of the subquery: change_type = sale and
occurred_at within the trailing window, for the given inventory id. -/
def saleMatches (since invId : Int) (c : ChangeRow) : Bool :=
  c.change_type == "sale" && decide (since ≤ c.occurred_at) && c.inventory_id == invId

/-- All ledger rows the subquery aggregates for one inventory id. -/
def matchingSales (db : Db) (since invId : Int) : List ChangeRow :=
  db.changes.filter (saleMatches since invId)

/-- sum(quantity_delta * -1) over the matching ledger rows. -/
def salesTotal (db : Db) (since invId : Int) : Int :=
  ((matchingSales db since invId).map (fun c => c.quantity_delta * -1)).sum

/-- The group produced for one inventory id: none when no ledger row
matches (SQL GROUP BY emits no group), otherwise the summed total and
the total divided by the fixed RECENT_SALES_DAYS. -/
def aggFor (db : Db) (since invId : Int) : Option SalesAgg :=
  if (matchingSales db since invId).isEmpty then none
  else some
    { inventory_id := invId
      total_sales := salesTotal db since invId
      avg_daily_sales := Rat.divInt (salesTotal db since invId) RECENT_SALES_DAYS }

/-- The sales subquery: one aggregate row per inventory row of a company
warehouse that has at least one matching sale ledger row. -/
def sales_subq (db : Db) (whIds : List Int) (since : Int) : List SalesAgg :=
  (db.inventories.filter (fun inv => decide (inv.warehouse_id ∈ whIds))).filterMap
    (fun inv => aggFor db since inv.id)

/-- Ids of the warehouses of the queried company. -/
def companyWarehouseIds (db : Db) (cid : Int) : List Int :=
  (db.warehouses.filter (fun w => decide (w.company_id = cid))).map (fun w => w.id)

/-- One row of the main query result. -/
structure ResultRow where
  product_id : Int
  product_name : String
  sku : String
  warehouse_id : Int
  warehouse_name : String
  current_stock : Int
  threshold : Option Int
  supplier_id : Int
  supplier_name : String
  contact_email : String
  avg_daily_sales : Option Rat
deriving DecidableEq

/-- The left outer join of the subquery against one inventory row, as a
lookup by inventory id. -/
def aggLookup (subq : List SalesAgg) (invId : Int) : Option SalesAgg :=
  subq.find? (fun a => a.inventory_id == invId)

/-- Inventory.quantity < Product.low_stock_thresh under SQL three-valued
logic: a NULL threshold makes the comparison unknown, so the row is
filtered out. -/
def thresholdPass (p : ProductRow) (inv : InventoryRow) : Bool :=
  match p.low_stock_thresh with
  | some t => decide (inv.quantity < t)
  | none => false

/-- total_sales IS NOT NULL and total_sales > 0 on the outer-joined
subquery columns. -/
def salesPass (subq : List SalesAgg) (invId : Int) : Bool :=
  match aggLookup subq invId with
  | some a => decide (0 < a.total_sales)
  | none => false

/-- The full WHERE clause of the main query, together with its three
inner-join conditions. -/
def passes (whIds : List Int) (subq : List SalesAgg) (p : ProductRow)
    (inv : InventoryRow) (w : WarehouseRow) (sup : SupplierRow) : Bool :=
  decide (inv.product_id = p.id) && decide (inv.warehouse_id = w.id) &&
  decide (p.supplier_id = sup.id) && decide (inv.warehouse_id ∈ whIds) &&
  thresholdPass p inv && salesPass subq inv.id

/-- The selected columns of one surviving joined row. -/
def rowOf (subq : List SalesAgg) (p : ProductRow) (inv : InventoryRow)
    (w : WarehouseRow) (sup : SupplierRow) : ResultRow :=
  { product_id := p.id
    product_name := p.name
    sku := p.sku
    warehouse_id := inv.warehouse_id
    warehouse_name := w.name
    current_stock := inv.quantity
    threshold := p.low_stock_thresh
    supplier_id := sup.id
    supplier_name := sup.name
    contact_email := sup.contact_email
    avg_daily_sales := (aggLookup subq inv.id).map (fun a => a.avg_daily_sales) }

/-- The main query: Product x Inventory x Warehouse x Supplier joined
and filtered, left outer joined against the sales subquery. -/
def low_stock_rows (db : Db) (cid now : Int) : List ResultRow :=
  db.products.flatMap (fun p =>
    db.inventories.flatMap (fun inv =>
      db.warehouses.flatMap (fun w =>
        db.suppliers.filterMap (fun sup =>
          if passes (companyWarehouseIds db cid)
              (sales_subq db (companyWarehouseIds db cid) (now - RECENT_SALES_DAYS))
              p inv w sup
          then some (rowOf
              (sales_subq db (companyWarehouseIds db cid) (now - RECENT_SALES_DAYS))
              p inv w sup)
          else none))))

/-- Exact rational division x / y, written on numerators and
denominators. -/
def ratDiv (x y : Rat) : Rat :=
  Rat.divInt (x.num * (y.den : Int)) ((x.den : Int) * y.num)

/-- math.ceil on an exact rational: the least integer at or above q,
computed as minus the floor of minus q (the denominator is positive, so
Euclidean division is floor division). -/
def ratCeil (q : Rat) : Int := -(Int.ediv (-(q.num)) (q.den : Int))

/-- The supplier record embedded in an alert. -/
structure SupplierInfo where
  id : Int
  name : String
  contact_email : String
deriving DecidableEq

/-- One alert of the response body. -/
structure Alert where
  product_id : Int
  product_name : String
  sku : String
  warehouse_id : Int
  warehouse_name : String
  current_stock : Int
  threshold : Int
  days_until_stockout : Option Int
  supplier : SupplierInfo
deriving DecidableEq

/-- The per-row assembly loop: threshold falls back to 1 when the
selected column is NULL, and days_until_stockout is the ceiling of
current_stock / avg_daily_sales when the Python truthiness test
(avg_daily_sales and avg_daily_sales > 0) passes, otherwise None. -/
def buildAlert (r : ResultRow) : Alert :=
  { product_id := r.product_id
    product_name := r.product_name
    sku := r.sku
    warehouse_id := r.warehouse_id
    warehouse_name := r.warehouse_name
    current_stock := r.current_stock
    threshold := r.threshold.getD 1
    days_until_stockout :=
      match r.avg_daily_sales with
      | some a => if 0 < a then some (ratCeil (ratDiv (Rat.divInt r.current_stock 1) a)) else none
      | none => none
    supplier :=
      { id := r.supplier_id, name := r.supplier_name, contact_email := r.contact_email } }

/-- The low_stock_alerts endpoint: the alert list and total_alerts. -/
def low_stock_alerts (db : Db) (cid now : Int) : List Alert × Nat :=
  ((low_stock_rows db cid now).map buildAlert,
   ((low_stock_rows db cid now).map buildAlert).length)

end Part3

/-! Concrete fixtures used to instantiate the theorems below. -/

/-- A store with no products, no inventory, and warehouses 1 and 2. -/
def storeA : Part1.Store :=
  { nextId := 1, products := [], inventories := [], warehouses := [1, 2] }

/-- Two well-formed warehouse_quantities entries. -/
def wqsValid : List Part1.Json :=
  [Part1.Json.obj [("warehouse_id", Part1.Json.int 1), ("quantity", Part1.Json.int 5)],
   Part1.Json.obj [("warehouse_id", Part1.Json.int 2), ("quantity", Part1.Json.int 7)]]

/-- A fully valid create request with two warehouse entries. -/
def reqValid : List (String × Part1.Json) :=
  [("name", Part1.Json.str "Widget"), ("sku", Part1.Json.str "W-1"),
   ("price", Part1.Json.str "19.99"),
   ("warehouse_quantities", Part1.Json.list wqsValid)]

/-- A structurally valid request whose only entry references warehouse 3,
which does not exist in storeA. -/
def reqBadWarehouse : List (String × Part1.Json) :=
  [("name", Part1.Json.str "Widget"), ("sku", Part1.Json.str "W-2"),
   ("price", Part1.Json.int 10),
   ("warehouse_quantities", Part1.Json.list
     [Part1.Json.obj [("warehouse_id", Part1.Json.int 3), ("quantity", Part1.Json.int 4)]])]

/-- A request that fails the warehouse_quantities entry validation
(negative quantity) but has all fields, a valid price and a fresh SKU. -/
def reqInvalidEntry : List (String × Part1.Json) :=
  [("name", Part1.Json.str "Widget"), ("sku", Part1.Json.str "W-3"),
   ("price", Part1.Json.int 10),
   ("warehouse_quantities", Part1.Json.list
     [Part1.Json.obj [("warehouse_id", Part1.Json.int 1), ("quantity", Part1.Json.int (-1))]])]

/-- The request of claim C9: the entry carries a string warehouse_id and
the boolean True as quantity. -/
def reqBoolQuantity : List (String × Part1.Json) :=
  [("name", Part1.Json.str "Widget"), ("sku", Part1.Json.str "W-9"),
   ("price", Part1.Json.int 10),
   ("warehouse_quantities", Part1.Json.list
     [Part1.Json.obj [("warehouse_id", Part1.Json.str "not-an-id"),
                      ("quantity", Part1.Json.bool true)]])]

/-- The single-product database of the alert-inclusion scenario: stock 5,
threshold 10, one sale of 3 units 5 days ago, queried at now = 100. -/
def db4 : Part3.Db :=
  { warehouses := [{ id := 1, company_id := 1, name := "Main" }]
    products := [{ id := 1, name := "Widget", sku := "W-1",
                   low_stock_thresh := some 10, supplier_id := 1 }]
    inventories := [{ id := 1, product_id := 1, warehouse_id := 1, quantity := 5 }]
    changes := [{ inventory_id := 1, quantity_delta := -3, change_type := "sale",
                  occurred_at := 95 }]
    suppliers := [{ id := 1, name := "Acme", contact_email := "acme@example.com" }] }

/-- The product of db4. -/
def prod4 : Part3.ProductRow :=
  { id := 1, name := "Widget", sku := "W-1", low_stock_thresh := some 10, supplier_id := 1 }

/-- The inventory row of db4. -/
def inv4 : Part3.InventoryRow :=
  { id := 1, product_id := 1, warehouse_id := 1, quantity := 5 }

/-- The warehouse of db4. -/
def wh4 : Part3.WarehouseRow := { id := 1, company_id := 1, name := "Main" }

/-- The query result row produced for db4. -/
def row4 : Part3.ResultRow :=
  { product_id := 1, product_name := "Widget", sku := "W-1", warehouse_id := 1,
    warehouse_name := "Main", current_stock := 5, threshold := some 10,
    supplier_id := 1, supplier_name := "Acme", contact_email := "acme@example.com",
    avg_daily_sales := some (Rat.divInt 3 30) }

/-- The alert assembled for db4. -/
def alert4 : Part3.Alert :=
  { product_id := 1, product_name := "Widget", sku := "W-1", warehouse_id := 1,
    warehouse_name := "Main", current_stock := 5, threshold := 10,
    days_until_stockout := some 50,
    supplier := { id := 1, name := "Acme", contact_email := "acme@example.com" } }

/-- Like db4 but the product has a NULL low_stock_thresh and the shelf is
empty: understocked under any positive effective threshold, with recent
sales. -/
def db6 : Part3.Db :=
  { warehouses := [{ id := 1, company_id := 1, name := "Main" }]
    products := [{ id := 1, name := "Widget", sku := "W-1",
                   low_stock_thresh := none, supplier_id := 1 }]
    inventories := [{ id := 1, product_id := 1, warehouse_id := 1, quantity := 0 }]
    changes := [{ inventory_id := 1, quantity_delta := -3, change_type := "sale",
                  occurred_at := 95 }]
    suppliers := [{ id := 1, name := "Acme", contact_email := "acme@example.com" }] }

/-- db6 with the threshold set to 1 instead of NULL. -/
def db6p : Part3.Db :=
  { db6 with products := [{ id := 1, name := "Widget", sku := "W-1",
                            low_stock_thresh := some 1, supplier_id := 1 }] }

/-- db4 extended with a second understocked, recently selling product
whose supplier reference (99) matches no Supplier row. -/
def db10 : Part3.Db :=
  { warehouses := [{ id := 1, company_id := 1, name := "Main" }]
    products := [{ id := 1, name := "Widget", sku := "W-1",
                   low_stock_thresh := some 10, supplier_id := 1 },
                 { id := 2, name := "Gadget", sku := "G-2",
                   low_stock_thresh := some 10, supplier_id := 99 }]
    inventories := [{ id := 1, product_id := 1, warehouse_id := 1, quantity := 5 },
                    { id := 2, product_id := 2, warehouse_id := 1, quantity := 1 }]
    changes := [{ inventory_id := 1, quantity_delta := -3, change_type := "sale",
                  occurred_at := 95 },
                { inventory_id := 2, quantity_delta := -6, change_type := "sale",
                  occurred_at := 95 }]
    suppliers := [{ id := 1, name := "Acme", contact_email := "acme@example.com" }] }

/-- The dangling-supplier product of db10. -/
def prod10 : Part3.ProductRow :=
  { id := 2, name := "Gadget", sku := "G-2", low_stock_thresh := some 10, supplier_id := 99 }

/-! Helper lemmas about create_product. -/

namespace Part1

/-- Every run of create_product either leaves the committed store exactly
as it was, or reports 201 created. -/
theorem create_product_state_cases (s : Store) (data : List (String × Json))
    (fault : Option CommitFault) :
    (create_product s data fault).2.1 = s ∨
      isCreated (create_product s data fault).1 = true := by
  unfold create_product
  repeat' split
  all_goals simp [isCreated]

/-- Every run of create_product leaves a trace that is one of: empty,
the lone pre-check read, or the transaction trace ending in a commit or
in a rollback. -/
theorem create_product_trace_cases (s : Store) (data : List (String × Json))
    (fault : Option CommitFault) :
    (create_product s data fault).2.2 = [] ∨
    (create_product s data fault).2.2 = [StoreOp.skuQuery] ∨
    (create_product s data fault).2.2 = txnTraceCommit ∨
    (create_product s data fault).2.2 = txnTraceRollback := by
  unfold create_product
  repeat' split
  all_goals simp

end Part1

/-! Claim theorems for the create_product endpoint. -/

/-- Claim C1: for every create-product request, if the operation does not
return the 201 created outcome (in particular when any insert of the
transactional write fails, for example on a warehouse_id that does not
exist), the whole transaction is rolled back before the error response
is returned, so the resulting store is exactly the initial store: zero
new Product rows and zero new Inventory rows. -/
theorem C1_failed_create_rolls_back (s : Part1.Store)
    (data : List (String × Part1.Json)) (fault : Option Part1.CommitFault)
    (h : Part1.isCreated (Part1.create_product s data fault).1 = false) :
    (Part1.create_product s data fault).2.1 = s := by
  rcases Part1.create_product_state_cases s data fault with hs | hc
  · exact hs
  · rw [hc] at h
    cases h

/-- Witness for C1: a request whose only warehouse entry references the
nonexistent warehouse 3 fails, and the store is left exactly storeA. -/
theorem C1_witness :
    Part1.isCreated (Part1.create_product storeA reqBadWarehouse none).1 = false ∧
    (Part1.create_product storeA reqBadWarehouse none).2.1 = storeA :=
  ⟨by decide, C1_failed_create_rolls_back storeA reqBadWarehouse none (by decide)⟩

/-- Claim C2, failing-input evaluation: on a fully valid request for
which the store surfaces a duplicate-SKU uniqueness violation at the
single commit point (the check-then-insert race the design notes call
out), the endpoint returns the generic 400 IntegrityError response with
the shared database-error message, not the distinct 409 conflict
outcome the claim requires for commit-time uniqueness violations. -/
theorem C2_failing_input_eval :
    (Part1.create_product storeA reqValid (some Part1.CommitFault.duplicateSku)).1 =
      Part1.CreateResult.badRequest Part1.dbErrMsg ∧
    Part1.isConflict
      (Part1.create_product storeA reqValid (some Part1.CommitFault.duplicateSku)).1 = false :=
  ⟨rfl, rfl⟩

/-- The commit-time handling behind the C2 evaluation, universally:
whenever the transaction is reached (the trace contains the product
insert) and the store surfaces a duplicate-SKU uniqueness violation at
commit time, the single except-IntegrityError handler returns the same
generic 400 response used for any other integrity violation, rolling
the store back; the 409 conflict outcome is produced only by the
pre-commit SKU existence check. -/
theorem commit_dup_sku_integrity_to_400 (s : Part1.Store)
    (data : List (String × Part1.Json))
    (h : Part1.StoreOp.insertProduct ∈
      (Part1.create_product s data (some Part1.CommitFault.duplicateSku)).2.2) :
    (Part1.create_product s data (some Part1.CommitFault.duplicateSku)).1 =
      Part1.CreateResult.badRequest Part1.dbErrMsg ∧
    (Part1.create_product s data (some Part1.CommitFault.duplicateSku)).2.1 = s := by
  unfold Part1.create_product at *
  repeat' split at h
  all_goals simp_all [Part1.txnTraceRollback, Part1.txnTraceCommit]

/-- Concrete instance of the commit-time handling: a valid request with
a commit-time duplicate-SKU violation gets the 400 database-error
message and leaves the store unchanged. -/
theorem commit_dup_sku_integrity_to_400_inst :
    (Part1.create_product storeA reqValid (some Part1.CommitFault.duplicateSku)).1 =
      Part1.CreateResult.badRequest Part1.dbErrMsg ∧
    (Part1.create_product storeA reqValid (some Part1.CommitFault.duplicateSku)).2.1 =
      storeA :=
  commit_dup_sku_integrity_to_400 storeA reqValid (by decide)

/-- Claim C7: a successful create with k warehouse entries appends
exactly k Inventory rows, the i-th referencing the generated product id
and carrying the warehouse_id and quantity of the i-th request entry. -/
theorem C7_multi_warehouse_fanout (s : Part1.Store)
    (data : List (String × Part1.Json)) (wqs : List Part1.Json) (pid : Int)
    (hwq : Part1.jfindD data "warehouse_quantities" = Part1.Json.list wqs)
    (h : (Part1.create_product s data none).1 = Part1.CreateResult.created pid) :
    (Part1.create_product s data none).2.1.inventories =
      s.inventories ++ wqs.map (Part1.mkInventory pid) ∧
    (Part1.create_product s data none).2.1.inventories.length =
      s.inventories.length + wqs.length := by
  unfold Part1.create_product at h ⊢
  repeat' split at h
  all_goals simp_all [Part1.commitStore, Part1.txnEntries]

/-- Witness for C7: the valid two-entry request creates product 1 and
appends exactly the two requested Inventory rows. -/
theorem C7_witness :
    Part1.jfindD reqValid "warehouse_quantities" = Part1.Json.list wqsValid ∧
    (Part1.create_product storeA reqValid none).1 = Part1.CreateResult.created 1 ∧
    ((Part1.create_product storeA reqValid none).2.1.inventories =
        storeA.inventories ++ wqsValid.map (Part1.mkInventory 1) ∧
      (Part1.create_product storeA reqValid none).2.1.inventories.length =
        storeA.inventories.length + wqsValid.length) :=
  ⟨rfl, rfl, C7_multi_warehouse_fanout storeA reqValid wqsValid 1 rfl rfl⟩

/-- Counterexample to claim C8: a request that is structurally invalid
(its only warehouse entry has a negative quantity) is rejected with the
entry-validation 400, yet its trace contains the SKU pre-check read, so
the store IS read before the rejection: the warehouse_quantities
validation runs after the first store access, not before it. -/
theorem C8_counterexample :
    (Part1.create_product storeA reqInvalidEntry none).1 =
      Part1.CreateResult.badRequest Part1.wqEntryMsg ∧
    (Part1.create_product storeA reqInvalidEntry none).2.2 = [Part1.StoreOp.skuQuery] ∧
    Part1.StoreOp.skuQuery ∈ (Part1.create_product storeA reqInvalidEntry none).2.2 :=
  ⟨rfl, rfl, by decide⟩

/-- Claim C8 as amended: a structurally invalid request is rejected with
the store state unchanged and with no store write: its trace is empty
(missing-field and price rejections, which do precede all store access)
or exactly the SKU pre-check read (warehouse_quantities rejections,
which happen after that read but before any write). -/
theorem C8_validation_rejects_without_store_write (s : Part1.Store)
    (data : List (String × Part1.Json)) (fault : Option Part1.CommitFault)
    (h : Part1.isValidationError (Part1.create_product s data fault).1 = true) :
    (Part1.create_product s data fault).2.1 = s ∧
    ((Part1.create_product s data fault).2.2 = [] ∨
      (Part1.create_product s data fault).2.2 = [Part1.StoreOp.skuQuery]) := by
  unfold Part1.create_product at h ⊢
  repeat' split
  all_goals first
    | exact ⟨rfl, Or.inl rfl⟩
    | exact ⟨rfl, Or.inr rfl⟩
    | simp_all [Part1.isValidationError, Part1.validationMsgs, Part1.dbErrMsg,
        Part1.missingFieldMsg, Part1.priceMsg, Part1.wqListMsg, Part1.wqEntryMsg]

/-- Witness for the amended C8: the invalid-entry request is rejected by
validation, the store is unchanged and the trace is read-only. -/
theorem C8_witness :
    (Part1.create_product storeA reqInvalidEntry none).2.1 = storeA ∧
    ((Part1.create_product storeA reqInvalidEntry none).2.2 = [] ∨
      (Part1.create_product storeA reqInvalidEntry none).2.2 = [Part1.StoreOp.skuQuery]) :=
  C8_validation_rejects_without_store_write storeA reqInvalidEntry none (by decide)

/-- Claim C9: the entry {warehouse_id: "not-an-id", quantity: True}
passes the validation loop (warehouse_id is only checked for presence,
and isinstance(True, int) holds in Python), so the request proceeds to
the store-facing steps: the trace reaches the product insert and the
failure it eventually gets is the store IntegrityError 400, not a
validation 400. -/
theorem C9_presence_only_and_bool_quantity_accepted :
    Part1.entryValid (Part1.Json.obj [("warehouse_id", Part1.Json.str "not-an-id"),
      ("quantity", Part1.Json.bool true)]) = true ∧
    Part1.create_product storeA reqBoolQuantity none =
      (Part1.CreateResult.badRequest Part1.dbErrMsg, storeA, Part1.txnTraceRollback) ∧
    Part1.StoreOp.insertProduct ∈ (Part1.create_product storeA reqBoolQuantity none).2.2 ∧
    Part1.isValidationError (Part1.create_product storeA reqBoolQuantity none).1 = false :=
  ⟨rfl, rfl, by decide, by decide⟩

/-! Helper lemmas about the alert query. -/

namespace Part3

/-- Membership in the company warehouse id list. -/
theorem mem_companyWarehouseIds {db : Db} {cid x : Int} :
    x ∈ companyWarehouseIds db cid ↔
      ∃ w ∈ db.warehouses, w.company_id = cid ∧ w.id = x := by
  simp only [companyWarehouseIds, List.mem_map, List.mem_filter, decide_eq_true_eq]
  constructor
  · rintro ⟨w, ⟨hw, hc⟩, hx⟩
    exact ⟨w, hw, hc, hx⟩
  · rintro ⟨w, hw, hc, hx⟩
    exact ⟨w, ⟨hw, hc⟩, hx⟩

/-- Membership in the sales subquery result. -/
theorem mem_sales_subq {db : Db} {whIds : List Int} {since : Int} {a : SalesAgg} :
    a ∈ sales_subq db whIds since ↔
      ∃ inv ∈ db.inventories, inv.warehouse_id ∈ whIds ∧
        aggFor db since inv.id = some a := by
  simp only [sales_subq, List.mem_filterMap, List.mem_filter, decide_eq_true_eq]
  constructor
  · rintro ⟨inv, ⟨hinv, hwh⟩, hagg⟩
    exact ⟨inv, hinv, hwh, hagg⟩
  · rintro ⟨inv, hinv, hwh, hagg⟩
    exact ⟨inv, ⟨hinv, hwh⟩, hagg⟩

/-- Shape of a group row: aggFor returns some exactly on a nonempty
match list, and then yields the canonical total and average for that
inventory id. -/
theorem aggFor_eq_some {db : Db} {since invId : Int} {a : SalesAgg} :
    aggFor db since invId = some a ↔
      matchingSales db since invId ≠ [] ∧
      a = { inventory_id := invId
            total_sales := salesTotal db since invId
            avg_daily_sales := Rat.divInt (salesTotal db since invId) RECENT_SALES_DAYS } := by
  unfold aggFor
  split
  · rename_i hemp
    simp [List.isEmpty_iff.mp hemp]
  · rename_i hemp
    have : matchingSales db since invId ≠ [] := by
      intro h
      exact hemp (by simp [h])
    simp [this, eq_comm]

/-- Every subquery row carries the canonical total and average of its
inventory id. -/
theorem sales_subq_spec {db : Db} {whIds : List Int} {since : Int} {a : SalesAgg}
    (ha : a ∈ sales_subq db whIds since) :
    matchingSales db since a.inventory_id ≠ [] ∧
    a.total_sales = salesTotal db since a.inventory_id ∧
    a.avg_daily_sales =
      Rat.divInt (salesTotal db since a.inventory_id) RECENT_SALES_DAYS := by
  obtain ⟨inv, -, -, hagg⟩ := mem_sales_subq.mp ha
  obtain ⟨hne, hform⟩ := aggFor_eq_some.mp hagg
  subst hform
  exact ⟨hne, rfl, rfl⟩

/-- The outer-join lookup finds a row exactly when the subquery holds
one for the inventory id, and any found row carries the canonical total
and average of that id. -/
theorem aggLookup_eq_some {subq : List SalesAgg} {invId : Int} {a : SalesAgg}
    (h : aggLookup subq invId = some a) :
    a ∈ subq ∧ a.inventory_id = invId := by
  constructor
  · exact List.mem_of_find?_eq_some h
  · have := List.find?_some h
    simpa using this

/-- If some subquery row matches the inventory id, the lookup finds one. -/
theorem aggLookup_isSome {subq : List SalesAgg} {invId : Int} {a : SalesAgg}
    (ha : a ∈ subq) (hid : a.inventory_id = invId) :
    ∃ b, aggLookup subq invId = some b := by
  have : (subq.find? (fun x => x.inventory_id == invId)).isSome :=
    List.find?_isSome.mpr ⟨a, ha, by simp [hid]⟩
  exact Option.isSome_iff_exists.mp this

/-- Decomposition of the WHERE clause. -/
theorem passes_iff {whIds : List Int} {subq : List SalesAgg} {p : ProductRow}
    {inv : InventoryRow} {w : WarehouseRow} {sup : SupplierRow} :
    passes whIds subq p inv w sup = true ↔
      inv.product_id = p.id ∧ inv.warehouse_id = w.id ∧ p.supplier_id = sup.id ∧
      inv.warehouse_id ∈ whIds ∧
      (∃ t, p.low_stock_thresh = some t ∧ inv.quantity < t) ∧
      (∃ a, aggLookup subq inv.id = some a ∧ 0 < a.total_sales) := by
  unfold passes thresholdPass salesPass
  simp only [Bool.and_eq_true, decide_eq_true_eq]
  constructor
  · rintro ⟨⟨⟨⟨⟨h1, h2⟩, h3⟩, h4⟩, h5⟩, h6⟩
    refine ⟨h1, h2, h3, h4, ?_, ?_⟩
    · revert h5
      cases hth : p.low_stock_thresh with
      | none => simp
      | some t =>
        intro h5
        exact ⟨t, rfl, by simpa using h5⟩
    · revert h6
      cases hag : aggLookup subq inv.id with
      | none => simp
      | some a =>
        intro h6
        exact ⟨a, rfl, by simpa using h6⟩
  · rintro ⟨h1, h2, h3, h4, ⟨t, hth, hlt⟩, ⟨a, hag, hpos⟩⟩
    refine ⟨⟨⟨⟨⟨h1, h2⟩, h3⟩, h4⟩, ?_⟩, ?_⟩
    · rw [hth]
      simpa using hlt
    · rw [hag]
      simpa using hpos

/-- Membership in the main query result. -/
theorem mem_low_stock_rows {db : Db} {cid now : Int} {r : ResultRow} :
    r ∈ low_stock_rows db cid now ↔
      ∃ p ∈ db.products, ∃ inv ∈ db.inventories, ∃ w ∈ db.warehouses,
        ∃ sup ∈ db.suppliers,
          passes (companyWarehouseIds db cid)
            (sales_subq db (companyWarehouseIds db cid) (now - RECENT_SALES_DAYS))
            p inv w sup = true ∧
          r = rowOf (sales_subq db (companyWarehouseIds db cid) (now - RECENT_SALES_DAYS))
            p inv w sup := by
  unfold low_stock_rows
  simp only [List.mem_flatMap, List.mem_filterMap]
  constructor
  · rintro ⟨p, hp, inv, hinv, w, hw, sup, hsup, hif⟩
    refine ⟨p, hp, inv, hinv, w, hw, sup, hsup, ?_⟩
    split at hif
    · rename_i hpass
      cases hif
      exact ⟨hpass, rfl⟩
    · cases hif
  · rintro ⟨p, hp, inv, hinv, w, hw, sup, hsup, hpass, hrow⟩
    refine ⟨p, hp, inv, hinv, w, hw, sup, hsup, ?_⟩
    rw [if_pos hpass, hrow]

end Part3

namespace Part3

/-- The executable division used by the assembler agrees with rational
division. -/
theorem ratDiv_eq_div (x y : Rat) : ratDiv x y = x / y := by
  unfold ratDiv
  rw [Rat.divInt_eq_div]
  rcases eq_or_ne y 0 with hy | hy
  · subst hy
    simp
  · have hd : ((x.den : Rat)) ≠ 0 := by
      exact_mod_cast x.den_nz
    have hdy : ((y.den : Rat)) ≠ 0 := by
      exact_mod_cast y.den_nz
    have hn : ((y.num : Rat)) ≠ 0 := by
      exact_mod_cast Rat.num_ne_zero.mpr hy
    have hx : (x.num : Rat) = x * x.den := (div_eq_iff hd).mp (Rat.num_div_den x)
    have hyy : (y.num : Rat) = y * y.den := (div_eq_iff hdy).mp (Rat.num_div_den y)
    push_cast
    field_simp
    rw [hx, hyy]
    ring

/-- The executable ceiling used by the assembler agrees with the
mathematical ceiling. -/
theorem ratCeil_eq_ceil (q : Rat) : ratCeil q = ⌈q⌉ := by
  unfold ratCeil
  rw [show ⌈q⌉ = -⌊-q⌋ by rw [← Int.ceil_neg, neg_neg]]
  congr 1
  rw [Rat.floor_def]
  simp
  rfl

end Part3

/-! Claim theorems for the low_stock_alerts endpoint. -/

/-- Claim C3: under the referential-integrity and key-uniqueness
invariants of the data model, an alert row for a (product, warehouse)
inventory row is returned exactly when the warehouse belongs to the
queried company, the inventory quantity is strictly below the product
threshold, and the sales subquery holds a strictly positive aggregate
for the inventory id; in particular an understocked row with no
matching recent sale is absent, and a row at or above threshold is
absent regardless of sales. -/
theorem C3_alert_inclusion_iff (db : Part3.Db) (cid now : Int)
    (p : Part3.ProductRow) (inv : Part3.InventoryRow) (w : Part3.WarehouseRow)
    (t : Int)
    (hp : p ∈ db.products) (hinv : inv ∈ db.inventories) (hw : w ∈ db.warehouses)
    (hpid : inv.product_id = p.id) (hwid : inv.warehouse_id = w.id)
    (ht : p.low_stock_thresh = some t)
    (hsup : ∃ sup ∈ db.suppliers, p.supplier_id = sup.id)
    (hpU : ∀ p2 ∈ db.products, p2.id = p.id → p2 = p)
    (hwU : ∀ w2 ∈ db.warehouses, w2.id = w.id → w2 = w)
    (hinvU : ∀ i2 ∈ db.inventories,
      i2.product_id = p.id → i2.warehouse_id = w.id → i2 = inv) :
    (∃ r ∈ Part3.low_stock_rows db cid now,
      r.product_id = p.id ∧ r.warehouse_id = w.id) ↔
    (w.company_id = cid ∧ inv.quantity < t ∧
      ∃ a ∈ Part3.sales_subq db (Part3.companyWarehouseIds db cid)
          (now - Part3.RECENT_SALES_DAYS),
        a.inventory_id = inv.id ∧ 0 < a.total_sales) := by
  constructor
  · rintro ⟨r, hr, hrp, hrw⟩
    obtain ⟨p2, hp2, inv2, hinv2, w2, hw2, sup2, hsup2, hpass, hre⟩ :=
      Part3.mem_low_stock_rows.mp hr
    subst hre
    simp only [Part3.rowOf] at hrp hrw
    obtain ⟨h1, h2, h3, h4, ⟨t2, hth2, hlt2⟩, ⟨a, hag, hpos⟩⟩ :=
      Part3.passes_iff.mp hpass
    have hp2p : p2 = p := hpU p2 hp2 hrp
    have hinv2i : inv2 = inv := hinvU inv2 hinv2 (by rw [h1, hp2p]) hrw
    refine ⟨?_, ?_, ?_⟩
    · obtain ⟨w3, hw3, hc3, hid3⟩ := Part3.mem_companyWarehouseIds.mp h4
      have hw3w : w3 = w := hwU w3 hw3 (by rw [hid3, hrw])
      rw [← hw3w]
      exact hc3
    · have hth2p : p.low_stock_thresh = some t2 := by
        rw [← hp2p]
        exact hth2
      have htt : t = t2 := Option.some.inj (ht.symm.trans hth2p)
      rw [htt, ← hinv2i]
      exact hlt2
    · obtain ⟨hamem, haid⟩ := Part3.aggLookup_eq_some hag
      rw [hinv2i] at haid
      exact ⟨a, hamem, haid, hpos⟩
  · rintro ⟨hcid, hqt, a, hamem, haid, hapos⟩
    obtain ⟨sup, hsupmem, hsupid⟩ := hsup
    have hwh : inv.warehouse_id ∈ Part3.companyWarehouseIds db cid :=
      Part3.mem_companyWarehouseIds.mpr ⟨w, hw, hcid, hwid.symm⟩
    obtain ⟨b, hb⟩ := Part3.aggLookup_isSome hamem haid
    obtain ⟨hbmem, hbid⟩ := Part3.aggLookup_eq_some hb
    have hbtot : b.total_sales = a.total_sales := by
      rw [(Part3.sales_subq_spec hbmem).2.1, (Part3.sales_subq_spec hamem).2.1,
        hbid, haid]
    have hpass : Part3.passes (Part3.companyWarehouseIds db cid)
        (Part3.sales_subq db (Part3.companyWarehouseIds db cid)
          (now - Part3.RECENT_SALES_DAYS)) p inv w sup = true :=
      Part3.passes_iff.mpr
        ⟨hpid, hwid, hsupid, hwh, ⟨t, ht, hqt⟩, ⟨b, hb, by rw [hbtot]; exact hapos⟩⟩
    refine ⟨Part3.rowOf (Part3.sales_subq db (Part3.companyWarehouseIds db cid)
        (now - Part3.RECENT_SALES_DAYS)) p inv w sup, ?_, rfl, ?_⟩
    · exact Part3.mem_low_stock_rows.mpr
        ⟨p, hp, inv, hinv, w, hw, sup, hsupmem, hpass, rfl⟩
    · simp only [Part3.rowOf]
      exact hwid

/-- Witness for C3: in db4 the right-hand side conditions hold, so the
alert list is nonempty. -/
theorem C3_witness : Part3.low_stock_rows db4 1 100 ≠ [] := by
  have h := (C3_alert_inclusion_iff db4 1 100 prod4 inv4 wh4 10
    (by decide) (by decide) (by decide) (by decide) (by decide) (by decide)
    (by decide) (by decide) (by decide) (by decide)).mpr
    ⟨rfl, by decide,
      ⟨{ inventory_id := 1, total_sales := 3, avg_daily_sales := Rat.divInt 3 30 },
        by decide, rfl, by decide⟩⟩
  obtain ⟨r, hr, -, -⟩ := h
  exact List.ne_nil_of_mem hr

/-- Claim C4: for current_stock 5, threshold 10 and one sale of 3 units
inside the 30-day window, the endpoint computes avg_daily_sales exactly
3/30 = 1/10, includes the product in the alert list, and reports
days_until_stockout = ceil(5 / (1/10)) = 50. -/
theorem C4_alert_inclusion_numbers :
    Part3.low_stock_rows db4 1 100 = [row4] ∧
    row4.avg_daily_sales = some ((1 : Rat) / 10) ∧
    Part3.low_stock_alerts db4 1 100 = ([alert4], 1) ∧
    alert4.days_until_stockout = some ⌈(5 : Rat) / ((1 : Rat) / 10)⌉ := by
  refine ⟨rfl, ?_, rfl, ?_⟩
  · show some (Rat.divInt 3 30) = some ((1 : Rat) / 10)
    rw [Rat.divInt_eq_div]
    norm_num
  · rw [show ⌈(5 : Rat) / ((1 : Rat) / 10)⌉ = 50 by norm_num]
    rfl

/-- Claim C5: every sales-subquery row for an inventory id carries the
sum of the magnitudes of the negative sale deltas in the window divided
by the fixed divisor 30 (not the number of days that contain sales),
and an inventory id with zero matching ledger rows is absent from the
aggregation result entirely. -/
theorem C5_sales_velocity (db : Part3.Db) (whIds : List Int) (since invId : Int)
    (hneg : ∀ c ∈ db.changes, c.change_type = "sale" → c.quantity_delta < 0) :
    (∀ a ∈ Part3.sales_subq db whIds since, a.inventory_id = invId →
      a.total_sales =
        ((Part3.matchingSales db since invId).map (fun c => |c.quantity_delta|)).sum ∧
      a.avg_daily_sales = Rat.divInt a.total_sales 30) ∧
    (Part3.matchingSales db since invId = [] →
      ∀ a ∈ Part3.sales_subq db whIds since, a.inventory_id ≠ invId) := by
  constructor
  · intro a ha haid
    obtain ⟨hne, htot, havg⟩ := Part3.sales_subq_spec ha
    rw [haid] at htot havg
    constructor
    · rw [htot]
      unfold Part3.salesTotal
      congr 1
      apply List.map_congr_left
      intro c hc
      have hcm : c ∈ db.changes := List.mem_of_mem_filter hc
      have hsale : c.change_type = "sale" := by
        have hmt := List.of_mem_filter hc
        simp only [Part3.saleMatches, Bool.and_eq_true, beq_iff_eq,
          decide_eq_true_eq] at hmt
        exact hmt.1.1
      have habs : |c.quantity_delta| = -c.quantity_delta :=
        abs_of_neg (hneg c hcm hsale)
      rw [habs]
      ring
    · rw [havg, ← htot]
      rfl
  · intro hemp a ha haid
    obtain ⟨hne, -, -⟩ := Part3.sales_subq_spec ha
    rw [haid] at hne
    exact hne hemp

/-- Witness for C5: in db4 inventory id 2 has no matching ledger rows
and the only aggregate row, the one for inventory 1, is not keyed 2. -/
theorem C5_witness :
    Part3.matchingSales db4 70 2 = [] ∧
    ({ inventory_id := 1, total_sales := 3,
       avg_daily_sales := Rat.divInt 3 30 } : Part3.SalesAgg).inventory_id ≠ 2 :=
  ⟨rfl, (C5_sales_velocity db4 [1] 70 2 (by decide)).2 rfl
    { inventory_id := 1, total_sales := 3, avg_daily_sales := Rat.divInt 3 30 }
    (by decide)⟩

/-- Counterexample to claim C6: in db6 the product has a NULL threshold,
quantity 0 and recent sales, so under an effective threshold of 1 it
would alert; the endpoint returns no alerts, because the SQL filter
quantity < low_stock_thresh is unknown on NULL and excludes the row
before the assembler fallback can apply.  With the threshold stored as
1 instead of NULL, the same data does alert. -/
theorem C6_counterexample :
    Part3.low_stock_alerts db6 1 100 = ([], 0) ∧
    Part3.low_stock_alerts db6p 1 100 ≠ ([], 0) := by
  exact ⟨rfl, by decide⟩

/-- Claim C6 as amended: a product with a NULL stored threshold never
participates in alerting (the query filter excludes it), so the
assembler fallback to 1 is unreachable on query output: every produced
row has a non-NULL stored threshold, the reported alert threshold is
that stored value, and the row passed the filter against it. -/
theorem C6_null_threshold_never_alerts (db : Part3.Db) (cid now : Int)
    (r : Part3.ResultRow) (hr : r ∈ Part3.low_stock_rows db cid now) :
    r.threshold = some ((Part3.buildAlert r).threshold) ∧
    r.current_stock < (Part3.buildAlert r).threshold := by
  obtain ⟨p2, hp2, inv2, hinv2, w2, hw2, sup2, hsup2, hpass, hre⟩ :=
    Part3.mem_low_stock_rows.mp hr
  subst hre
  obtain ⟨-, -, -, -, ⟨t2, hth2, hlt2⟩, -⟩ := Part3.passes_iff.mp hpass
  constructor
  · simp only [Part3.rowOf, Part3.buildAlert, hth2, Option.getD_some]
  · simp only [Part3.rowOf, Part3.buildAlert, hth2, Option.getD_some]
    exact hlt2

/-- Witness for the amended C6: the row produced for db4 has stored
threshold 10, reports threshold 10 and passed the filter with 5 < 10. -/
theorem C6_witness :
    row4.threshold = some ((Part3.buildAlert row4).threshold) ∧
    row4.current_stock < (Part3.buildAlert row4).threshold :=
  C6_null_threshold_never_alerts db4 1 100 row4 (by decide)

/-- Claim C10: the supplier join is an inner join, so a product whose
supplier reference matches no Supplier row yields no alert even if all
other conditions hold, and every returned alert row carries the id,
name and contact email of an existing Supplier row matched by id. -/
theorem C10_supplier_inner_join (db : Part3.Db) (cid now : Int)
    (p : Part3.ProductRow) (_hp : p ∈ db.products)
    (hnosup : ∀ sup ∈ db.suppliers, sup.id ≠ p.supplier_id)
    (hpU : ∀ p2 ∈ db.products, p2.id = p.id → p2 = p) :
    (∀ r ∈ Part3.low_stock_rows db cid now, r.product_id ≠ p.id) ∧
    (∀ r ∈ Part3.low_stock_rows db cid now, ∃ sup ∈ db.suppliers,
      r.supplier_id = sup.id ∧ r.supplier_name = sup.name ∧
      r.contact_email = sup.contact_email) := by
  constructor
  · rintro r hr hrp
    obtain ⟨p2, hp2, inv2, hinv2, w2, hw2, sup2, hsup2, hpass, hre⟩ :=
      Part3.mem_low_stock_rows.mp hr
    subst hre
    simp only [Part3.rowOf] at hrp
    have hp2p : p2 = p := hpU p2 hp2 hrp
    obtain ⟨-, -, h3, -, -, -⟩ := Part3.passes_iff.mp hpass
    rw [hp2p] at h3
    exact hnosup sup2 hsup2 h3.symm
  · rintro r hr
    obtain ⟨p2, hp2, inv2, hinv2, w2, hw2, sup2, hsup2, hpass, hre⟩ :=
      Part3.mem_low_stock_rows.mp hr
    subst hre
    exact ⟨sup2, hsup2, rfl, rfl, rfl⟩

/-- Witness for C10: in db10 product 2 is understocked with recent
sales, but its supplier reference 99 is dangling, and the produced row
(the one for product 1) is not for product 2. -/
theorem C10_witness :
    row4 ∈ Part3.low_stock_rows db10 1 100 ∧ row4.product_id ≠ 2 :=
  ⟨by decide,
    (C10_supplier_inner_join db10 1 100 prod10 (by decide) (by decide)
      (by decide)).1 row4 (by decide)⟩
